import Mathlib

/-!
Verification development for the supply-chain gRPC server
(`Scrimzay/supplychaingrpc`): a shallow embedding of the server's
handlers (`CreateItem`, `UpdateItem`, `DeleteItem`, `CreateOrder`,
`FulfillOrder`, `GetOrder`, `CreateShipment`, `UpdateShipment`) and of
the authorization/audit interceptor (`unaryInterceptor`), together with
theorems about the invariants the server maintains.

The relational store (SQLite) is embedded as lists of rows, one list per
table, with the schema of `db.InitDB`: primary keys are modelled by the
explicit duplicate checks the engine performs on INSERT, and the SQL
UPDATE/DELETE statements by the corresponding list transformations.
Foreign keys are not enforced (the code never issues
PRAGMA foreign_keys = ON, so SQLite leaves them off).  Environmental
inputs (`uuid.New().String()`, `time.Now().Unix()`, success of the
best-effort audit INSERT) are passed as explicit parameters.  Storage
failures other than constraint violations are not modelled.  Go's int64
arithmetic in the order-total computation is embedded with explicit
two's-complement wrap-around.
-/

namespace SupplyChain

/-- gRPC status codes produced by the server (google.golang.org/grpc/codes). -/
inductive Code where
  | invalidArgument
  | notFound
  | failedPrecondition
  | unauthenticated
  | permissionDenied
  | internal
  deriving DecidableEq, Repr

/-- The String() rendering of the status codes, as used by the audit logger
(`status.Code(err).String()`). -/
def Code.name : Code → String
  | .invalidArgument => "InvalidArgument"
  | .notFound => "NotFound"
  | .failedPrecondition => "FailedPrecondition"
  | .unauthenticated => "Unauthenticated"
  | .permissionDenied => "PermissionDenied"
  | .internal => "Internal"

/-- Outcome of one handler call: a normal response, a gRPC status error, or a
runtime panic (nil-pointer dereference).  A Go handler that panics never
returns, so `panicked` carries no payload. -/
inductive RpcResult (α : Type) where
  | ok (a : α)
  | err (c : Code)
  | panicked
  deriving DecidableEq, Repr

/-- Two's-complement wrap-around into the int64 range, Go's semantics for
overflowing 64-bit arithmetic. -/
def wrap64 (x : Int) : Int := (x + 2 ^ 63) % 2 ^ 64 - 2 ^ 63

/-- Go int64 addition. -/
def i64add (a b : Int) : Int := wrap64 (a + b)

/-- Go int64 multiplication. -/
def i64mul (a b : Int) : Int := wrap64 (a * b)

/-- proto message Amount: value in minor units, currency code, display string. -/
structure Amount where
  value : Int
  currency : String
  displayValue : String
  deriving DecidableEq, Repr

/-- Decimal rendering of a cent amount with two decimals.  The Go helper
formats float64(value)/100.0 with %.2f, which agrees with the exact
decimal rendering of value/100 on the magnitudes the server handles. -/
def centsDisplay (v : Int) : String :=
  let sign := if v < 0 then "-" else ""
  let a := v.natAbs
  let c := a % 100
  sign ++ toString (a / 100) ++ "." ++ (if c < 10 then "0" else "") ++ toString c

/-- formatAmount: sets DisplayValue from Value, passing nil through. -/
def formatAmount (a : Amount) : Amount :=
  { a with displayValue := centsDisplay a.value }

/-- Row of the items table. -/
structure ItemRow where
  id : String
  name : String
  description : String
  quantity : Int
  unitPriceValue : Int
  unitPriceCurrency : String
  updatedAt : Int
  deriving DecidableEq, Repr

/-- Row of the orders table. -/
structure OrderRow where
  id : String
  customerId : String
  totalValue : Int
  totalCurrency : String
  status : String
  createdAt : Int
  deriving DecidableEq, Repr

/-- Row of the order_items table; PRIMARY KEY (order_id, item_id). -/
structure OrderItemRow where
  orderId : String
  itemId : String
  quantity : Int
  deriving DecidableEq, Repr

/-- Row of the shipments table. -/
structure ShipmentRow where
  id : String
  orderId : String
  status : String
  trackingNumber : String
  updatedAt : Int
  deriving DecidableEq, Repr

/-- Row of the users table: api_key to role. -/
structure UserRow where
  apiKey : String
  role : String
  deriving DecidableEq, Repr

/-- Row of the audit_logs table (the autoincrement id is the list position). -/
structure AuditRow where
  apiKey : String
  method : String
  requestData : String
  status : String
  timestamp : Int
  deriving DecidableEq, Repr

/-- The whole relational store. -/
structure DB where
  items : List ItemRow
  orders : List OrderRow
  orderItems : List OrderItemRow
  shipments : List ShipmentRow
  users : List UserRow
  auditLogs : List AuditRow
  deriving DecidableEq, Repr

/-- The store right after schema creation, before any call. -/
def emptyDB : DB := ⟨[], [], [], [], [], []⟩

/-- proto message Item (response shape). -/
structure Item where
  id : String
  name : String
  description : String
  quantity : Int
  unitPrice : Amount
  updatedAt : Int
  deriving DecidableEq, Repr

/-- proto message OrderItem: one line of an order. -/
structure OrderLine where
  itemId : String
  quantity : Int
  deriving DecidableEq, Repr

/-- proto message Order (response shape); total is a nullable message. -/
structure Order where
  id : String
  customerId : String
  items : List OrderLine
  total : Option Amount
  status : String
  createdAt : Int
  deriving DecidableEq, Repr

/-- proto message Shipment (response shape). -/
structure Shipment where
  id : String
  orderId : String
  status : String
  trackingNumber : String
  updatedAt : Int
  deriving DecidableEq, Repr

/-- proto message CreateItemRequest; unit_price is a nullable message. -/
structure CreateItemRequest where
  name : String
  description : String
  quantity : Int
  unitPrice : Option Amount
  deriving DecidableEq, Repr

/-- proto message UpdateItemRequest. -/
structure UpdateItemRequest where
  id : String
  name : String
  description : String
  quantity : Int
  unitPrice : Option Amount
  deriving DecidableEq, Repr

/-- proto message CreateOrderRequest. -/
structure CreateOrderRequest where
  customerId : String
  items : List OrderLine
  deriving DecidableEq, Repr

/-- proto message CreateShipmentRequest. -/
structure CreateShipmentRequest where
  orderId : String
  trackingNumber : String
  deriving DecidableEq, Repr

/-- proto message UpdateShipmentRequest. -/
structure UpdateShipmentRequest where
  id : String
  status : String
  trackingNumber : String
  deriving DecidableEq, Repr

/-- SELECT ... FROM orders WHERE id = ? (primary-key lookup). -/
def findOrder (db : DB) (oid : String) : Option OrderRow :=
  db.orders.find? (fun o => o.id == oid)

/-- SELECT ... FROM items WHERE id = ? (primary-key lookup). -/
def findItem (items : List ItemRow) (iid : String) : Option ItemRow :=
  items.find? (fun it => it.id == iid)

/-- CreateItem handler.  `newId` is the generated uuid, `now` the clock. -/
def createItem (db : DB) (req : CreateItemRequest) (newId : String) (now : Int) :
    RpcResult Item × DB :=
  if req.name = "" then (.err .invalidArgument, db)
  else if req.quantity < 0 then (.err .invalidArgument, db)
  else
    match req.unitPrice with
    | none => (.panicked, db)  -- req.UnitPrice.Value dereferences a nil pointer
    | some p =>
      if p.value < 0 then (.err .invalidArgument, db)
      else if (db.items.any (fun it => it.id == newId)) then (.err .internal, db)
      else
        (.ok ⟨newId, req.name, req.description, req.quantity, formatAmount p, now⟩,
         { db with items := db.items ++
            [⟨newId, req.name, req.description, req.quantity, p.value, p.currency, now⟩] })

/-- UpdateItem handler: an unconditional UPDATE keyed by id; the affected-row
count is not inspected. -/
def updateItem (db : DB) (req : UpdateItemRequest) (now : Int) :
    RpcResult Item × DB :=
  if req.id = "" then (.err .invalidArgument, db)
  else if req.name = "" then (.err .invalidArgument, db)
  else if req.quantity < 0 then (.err .invalidArgument, db)
  else
    match req.unitPrice with
    | none => (.panicked, db)  -- req.UnitPrice.Value dereferences a nil pointer
    | some p =>
      if p.value < 0 then (.err .invalidArgument, db)
      else
        (.ok ⟨req.id, req.name, req.description, req.quantity, formatAmount p, now⟩,
         { db with items := db.items.map (fun it =>
            if it.id == req.id then
              { it with name := req.name, description := req.description,
                        quantity := req.quantity, unitPriceValue := p.value,
                        unitPriceCurrency := p.currency, updatedAt := now }
            else it) })

/-- DeleteItem handler: DELETE keyed by id, NotFound when zero rows removed. -/
def deleteItem (db : DB) (id : String) : RpcResult Bool × DB :=
  if id = "" then (.err .invalidArgument, db)
  else
    let remaining := db.items.filter (fun it => !(it.id == id))
    if remaining.length = db.items.length then (.err .notFound, db)
    else (.ok true, { db with items := remaining })

/-- The CreateOrder price loop: walks the lines, reading each referenced
item's current unit price (none when a line's item is absent) and folding
price*quantity into the int64 accumulator. -/
def computeTotal (items : List ItemRow) : List OrderLine → Int → Option Int
  | [], acc => some acc
  | l :: ls, acc =>
    match findItem items l.itemId with
    | none => none
    | some it => computeTotal items ls (i64add acc (i64mul it.unitPriceValue l.quantity))

/-- The CreateOrder line-insert loop over order_items.  Each INSERT fails on a
duplicate of the composite primary key (order_id, item_id). -/
def insertLines (cur : List OrderItemRow) (oid : String) :
    List OrderLine → Option (List OrderItemRow)
  | [] => some cur
  | l :: ls =>
    if cur.any (fun r => r.orderId == oid && r.itemId == l.itemId) then none
    else insertLines (cur ++ [⟨oid, l.itemId, l.quantity⟩]) oid ls

/-- CreateOrder handler: price snapshot inside one transaction; any failure
rolls the whole transaction back. -/
def createOrder (db : DB) (req : CreateOrderRequest) (newId : String) (now : Int) :
    RpcResult Order × DB :=
  if req.customerId = "" then (.err .invalidArgument, db)
  else if req.items.length = 0 then (.err .invalidArgument, db)
  else
    match computeTotal db.items req.items 0 with
    | none => (.err .notFound, db)
    | some tot =>
      if db.orders.any (fun o => o.id == newId) then (.err .internal, db)
      else
        match insertLines db.orderItems newId req.items with
        | none => (.err .internal, db)
        | some lines =>
          (.ok ⟨newId, req.customerId, req.items,
                some (formatAmount ⟨tot, "USD", ""⟩), "PENDING", now⟩,
           { db with
              orders := db.orders ++ [⟨newId, req.customerId, tot, "USD", "PENDING", now⟩],
              orderItems := lines })

/-- One conditional stock decrement, the row transformation of
UPDATE items SET quantity = quantity - q WHERE id = ? AND quantity >= q. -/
def decrementStep (l : OrderItemRow) (it : ItemRow) : ItemRow :=
  if it.id == l.itemId && decide (l.quantity ≤ it.quantity) then
    { it with quantity := it.quantity - l.quantity }
  else it

/-- The FulfillOrder stock loop: one conditional decrement per line.  The
affected-row count is not inspected. -/
def applyDecrements (items : List ItemRow) (lines : List OrderItemRow) : List ItemRow :=
  lines.foldl (fun its l => its.map (decrementStep l)) items

/-- The row transformation of
UPDATE orders SET status = 'FULFILLED' WHERE id = ?. -/
def setFulfilled (oid : String) (r : OrderRow) : OrderRow :=
  if r.id == oid then { r with status := "FULFILLED" } else r

/-- FulfillOrder handler: status gate, conditional decrements, transition to
FULFILLED, all in one transaction. -/
def fulfillOrder (db : DB) (orderId : String) : RpcResult Order × DB :=
  if orderId = "" then (.err .invalidArgument, db)
  else
    match findOrder db orderId with
    | none => (.err .notFound, db)
    | some o =>
      if o.status ≠ "PENDING" then (.err .failedPrecondition, db)
      else
        let lines := db.orderItems.filter (fun r => r.orderId == orderId)
        (.ok ⟨orderId, "", [], none, "FULFILLED", 0⟩,
         { db with
            items := applyDecrements db.items lines,
            orders := db.orders.map (setFulfilled orderId) })

/-- GetOrder handler: read-only assembly of an order and its lines. -/
def getOrder (db : DB) (id : String) : RpcResult Order × DB :=
  if id = "" then (.err .invalidArgument, db)
  else
    match findOrder db id with
    | none => (.err .notFound, db)
    | some o =>
      let lines := (db.orderItems.filter (fun r => r.orderId == id)).map
        (fun r => OrderLine.mk r.itemId r.quantity)
      (.ok ⟨o.id, o.customerId, lines,
            some (formatAmount ⟨o.totalValue, o.totalCurrency, ""⟩),
            o.status, o.createdAt⟩, db)

/-- CreateShipment handler: gated on the referenced order being FULFILLED. -/
def createShipment (db : DB) (req : CreateShipmentRequest) (newId : String) (now : Int) :
    RpcResult Shipment × DB :=
  if req.orderId = "" then (.err .invalidArgument, db)
  else if req.trackingNumber = "" then (.err .invalidArgument, db)
  else
    match findOrder db req.orderId with
    | none => (.err .notFound, db)
    | some o =>
      if o.status ≠ "FULFILLED" then (.err .failedPrecondition, db)
      else if db.shipments.any (fun s => s.id == newId) then (.err .internal, db)
      else
        (.ok ⟨newId, req.orderId, "PENDING", req.trackingNumber, now⟩,
         { db with shipments := db.shipments ++
            [⟨newId, req.orderId, "PENDING", req.trackingNumber, now⟩] })

/-- UpdateShipment handler: unconditional UPDATE keyed by id; the response
echoes the request (its orderId field is left zero). -/
def updateShipment (db : DB) (req : UpdateShipmentRequest) (now : Int) :
    RpcResult Shipment × DB :=
  if req.id = "" then (.err .invalidArgument, db)
  else if req.status = "" then (.err .invalidArgument, db)
  else
    (.ok ⟨req.id, "", req.status, req.trackingNumber, now⟩,
     { db with shipments := db.shipments.map (fun s =>
        if s.id == req.id then
          { s with status := req.status, trackingNumber := req.trackingNumber,
                   updatedAt := now }
        else s) })

/-- The per-role method allow-lists of the interceptor (a Go map whose miss
yields the empty list). -/
def allowedMethods (role : String) : List String :=
  if role = "customer" then
    ["/supplychain.SupplyChain/CreateOrder",
     "/supplychain.SupplyChain/ListItems",
     "/supplychain.SupplyChain/GetOrder"]
  else if role = "admin" then
    ["/supplychain.SupplyChain/CreateItem",
     "/supplychain.SupplyChain/UpdateItem",
     "/supplychain.SupplyChain/DeleteItem",
     "/supplychain.SupplyChain/CreateOrder",
     "/supplychain.SupplyChain/FulfillOrder",
     "/supplychain.SupplyChain/GetOrder",
     "/supplychain.SupplyChain/CreateShipment",
     "/supplychain.SupplyChain/UpdateShipment",
     "/supplychain.SupplyChain/ListItems",
     "/supplychain.SupplyChain/ListShipments",
     "/supplychain.SupplyChain/AuditLogs"]
  else []

/-- db.ValidateAPIKey: SELECT role FROM users WHERE api_key = ?. -/
def validateAPIKey (users : List UserRow) (apiKey : String) : Option String :=
  (users.find? (fun u => u.apiKey == apiKey)).map (fun u => u.role)

/-- The authorization/audit interceptor.  `md` is the incoming metadata's
api-key values (none when no metadata was attached), `requestData` the JSON
serialization of the request (with the code's fallback already applied),
`auditOk` whether the best-effort audit INSERT succeeds, and `handler` the
wrapped gRPC handler, which returns a response or a status error. -/
def unaryInterceptor {α : Type} (md : Option (List String)) (fullMethod : String)
    (requestData : String) (now : Int) (auditOk : Bool)
    (handler : DB → Except Code α × DB) (db : DB) : Except Code α × DB :=
  match md with
  | none => (.error .unauthenticated, db)
  | some keys =>
    match keys with
    | [] => (.error .unauthenticated, db)
    | apiKey :: _ =>
      match validateAPIKey db.users apiKey with
      | none => (.error .unauthenticated, db)
      | some role =>
        if fullMethod ∈ allowedMethods role then
          let res := handler db
          let logStatus := match res.1 with
            | .ok _ => "success"
            | .error c => c.name
          (res.1,
           if auditOk then
             { res.2 with auditLogs := res.2.auditLogs ++
                [⟨apiKey, fullMethod, requestData, logStatus, now⟩] }
           else res.2)
        else (.error .permissionDenied, db)

/-- One mutating or reading call against the store, with its environmental
inputs; used to state whole-history invariants. -/
inductive Op where
  | createItem (req : CreateItemRequest) (newId : String) (now : Int)
  | updateItem (req : UpdateItemRequest) (now : Int)
  | deleteItem (id : String)
  | createOrder (req : CreateOrderRequest) (newId : String) (now : Int)
  | fulfillOrder (orderId : String)
  | getOrder (id : String)
  | createShipment (req : CreateShipmentRequest) (newId : String) (now : Int)
  | updateShipment (req : UpdateShipmentRequest) (now : Int)
  deriving DecidableEq, Repr

/-- The store after one call (responses discarded). -/
def applyOp (db : DB) : Op → DB
  | .createItem req newId now => (createItem db req newId now).2
  | .updateItem req now => (updateItem db req now).2
  | .deleteItem id => (deleteItem db id).2
  | .createOrder req newId now => (createOrder db req newId now).2
  | .fulfillOrder orderId => (fulfillOrder db orderId).2
  | .getOrder id => (getOrder db id).2
  | .createShipment req newId now => (createShipment db req newId now).2
  | .updateShipment req now => (updateShipment db req now).2

/-- The store after a whole call history. -/
def runOps (db : DB) (ops : List Op) : DB := ops.foldl applyOp db

/-- Every stored item quantity is non-negative. -/
def itemsNonneg (db : DB) : Prop := ∀ it ∈ db.items, 0 ≤ it.quantity

instance (db : DB) : Decidable (itemsNonneg db) := by
  unfold itemsNonneg; infer_instance

/-- The order total a client observes through GetOrder (none when GetOrder
fails or returns no total). -/
def observedTotal (db : DB) (oid : String) : Option Int :=
  match (getOrder db oid).1 with
  | .ok o => o.total.map (fun a => a.value)
  | _ => none

/-! Helper lemmas about the list operations backing the SQL statements. -/

theorem find_append_some {α : Type} {p : α → Bool} {l₁ : List α} {a : α} (l₂ : List α)
    (h : l₁.find? p = some a) : (l₁ ++ l₂).find? p = some a := by
  induction l₁ with
  | nil => simp [List.find?] at h
  | cons x xs ih =>
    rw [List.cons_append]
    cases hx : p x with
    | true => simpa [List.find?_cons, hx] using h
    | false =>
      have h' : xs.find? p = some a := by simpa [List.find?_cons, hx] using h
      simpa [List.find?_cons, hx] using ih h'

theorem find_map_setFulfilled (l : List OrderRow) (tid oid : String) :
    (l.map (setFulfilled tid)).find? (fun o => o.id == oid)
      = (l.find? (fun o => o.id == oid)).map (setFulfilled tid) := by
  induction l with
  | nil => rfl
  | cons x xs ih =>
    have hid : (setFulfilled tid x).id = x.id := by
      unfold setFulfilled; split <;> rfl
    cases hx : (x.id == oid) with
    | true => simp [List.find?_cons, hid, hx]
    | false => simp [List.find?_cons, hid, hx, ih]

theorem map_ite_eq_self {α : Type} {p : α → Bool} {f : α → α} {l : List α}
    (h : ∀ x ∈ l, p x = false) :
    l.map (fun x => if p x then f x else x) = l := by
  induction l with
  | nil => rfl
  | cons x xs ih =>
    rw [List.map_cons, if_neg (by simp [h x (List.mem_cons_self x xs)]),
        ih (fun y hy => h y (List.mem_cons_of_mem x hy))]

theorem decrementStep_nonneg (l : OrderItemRow) (it : ItemRow) (h : 0 ≤ it.quantity) :
    0 ≤ (decrementStep l it).quantity := by
  unfold decrementStep
  split
  · next hc =>
      simp only [Bool.and_eq_true, decide_eq_true_eq] at hc
      simpa using sub_nonneg.mpr hc.2
  · exact h

theorem applyDecrements_nonneg (lines : List OrderItemRow) (items : List ItemRow)
    (h : ∀ it ∈ items, 0 ≤ it.quantity) :
    ∀ it ∈ applyDecrements items lines, 0 ≤ it.quantity := by
  induction lines generalizing items with
  | nil => exact h
  | cons l ls ih =>
    have hstep : ∀ it ∈ items.map (decrementStep l), 0 ≤ it.quantity := by
      intro it hit
      rcases List.mem_map.mp hit with ⟨a, ha, rfl⟩
      exact decrementStep_nonneg l a (h a ha)
    exact ih (items.map (decrementStep l)) hstep

theorem computeTotal_eq_none_iff (items : List ItemRow) (lines : List OrderLine)
    (acc : Int) :
    computeTotal items lines acc = none ↔ ∃ l ∈ lines, findItem items l.itemId = none := by
  induction lines generalizing acc with
  | nil => simp [computeTotal]
  | cons l ls ih =>
    unfold computeTotal
    cases h : findItem items l.itemId with
    | none => simp [h]
    | some it => simp [h, ih]

theorem insertLines_eq (oid : String) (ls : List OrderLine) (cur : List OrderItemRow)
    (h : ∀ l ∈ ls, ∀ r ∈ cur, ¬(r.orderId = oid ∧ r.itemId = l.itemId))
    (hnodup : (ls.map (fun l => l.itemId)).Nodup) :
    insertLines cur oid ls
      = some (cur ++ ls.map (fun l => ⟨oid, l.itemId, l.quantity⟩)) := by
  induction ls generalizing cur with
  | nil => simp [insertLines]
  | cons l ls ih =>
    have hany : cur.any (fun r => r.orderId == oid && r.itemId == l.itemId) = false := by
      rw [List.any_eq_false]
      intro r hr
      simp only [Bool.and_eq_true, beq_iff_eq, not_and]
      intro h1 h2
      exact h l (List.mem_cons_self l ls) r hr ⟨h1, h2⟩
    unfold insertLines
    rw [hany]
    simp only [Bool.false_eq_true, if_false]
    have hnext : ∀ l' ∈ ls, ∀ r ∈ cur ++ [(⟨oid, l.itemId, l.quantity⟩ : OrderItemRow)],
        ¬(r.orderId = oid ∧ r.itemId = l'.itemId) := by
      intro l' hl' r hr
      rcases List.mem_append.mp hr with h1 | h2
      · exact h l' (List.mem_cons_of_mem l hl') r h1
      · rcases List.mem_singleton.mp h2 with rfl
        rintro ⟨-, hitem⟩
        have : l.itemId ∈ ls.map (fun x => x.itemId) :=
          List.mem_map.mpr ⟨l', hl', hitem.symm⟩
        exact (List.nodup_cons.mp (by simpa using hnodup)).1 this
    rw [ih _ hnext (List.nodup_cons.mp (by simpa using hnodup)).2]
    simp

/-! Frame lemmas: which tables each handler leaves untouched. -/

theorem createItem_orders (db : DB) (req : CreateItemRequest) (newId : String) (now : Int) :
    ((createItem db req newId now).2).orders = db.orders := by
  unfold createItem; repeat' split
  all_goals rfl

theorem updateItem_orders (db : DB) (req : UpdateItemRequest) (now : Int) :
    ((updateItem db req now).2).orders = db.orders := by
  unfold updateItem; repeat' split
  all_goals rfl

theorem updateItem_orderItems (db : DB) (req : UpdateItemRequest) (now : Int) :
    ((updateItem db req now).2).orderItems = db.orderItems := by
  unfold updateItem; repeat' split
  all_goals rfl

theorem deleteItem_orders (db : DB) (id : String) :
    ((deleteItem db id).2).orders = db.orders := by
  simp only [deleteItem]; repeat' split
  all_goals rfl

theorem getOrder_snd (db : DB) (id : String) : (getOrder db id).2 = db := by
  unfold getOrder; repeat' split
  all_goals rfl

theorem createShipment_orders (db : DB) (req : CreateShipmentRequest)
    (newId : String) (now : Int) :
    ((createShipment db req newId now).2).orders = db.orders := by
  unfold createShipment; repeat' split
  all_goals rfl

theorem updateShipment_orders (db : DB) (req : UpdateShipmentRequest) (now : Int) :
    ((updateShipment db req now).2).orders = db.orders := by
  unfold updateShipment; repeat' split
  all_goals rfl

theorem createOrder_items (db : DB) (req : CreateOrderRequest) (newId : String) (now : Int) :
    ((createOrder db req newId now).2).items = db.items := by
  unfold createOrder; repeat' split
  all_goals rfl

theorem createShipment_items (db : DB) (req : CreateShipmentRequest)
    (newId : String) (now : Int) :
    ((createShipment db req newId now).2).items = db.items := by
  unfold createShipment; repeat' split
  all_goals rfl

theorem updateShipment_items (db : DB) (req : UpdateShipmentRequest) (now : Int) :
    ((updateShipment db req now).2).items = db.items := by
  unfold updateShipment; repeat' split
  all_goals rfl

/-! Non-negativity of stock is preserved by every handler. -/

theorem createItem_nonneg (db : DB) (req : CreateItemRequest) (newId : String) (now : Int)
    (h : itemsNonneg db) : itemsNonneg (createItem db req newId now).2 := by
  unfold createItem
  repeat' split
  any_goals exact h
  intro it hit
  rcases List.mem_append.mp hit with h1 | h2
  · exact h it h1
  · rcases List.mem_singleton.mp h2 with rfl
    show 0 ≤ req.quantity
    omega

theorem updateItem_nonneg (db : DB) (req : UpdateItemRequest) (now : Int)
    (h : itemsNonneg db) : itemsNonneg (updateItem db req now).2 := by
  unfold updateItem
  repeat' split
  any_goals exact h
  intro it hit
  rcases List.mem_map.mp hit with ⟨a, ha, rfl⟩
  split
  · show 0 ≤ req.quantity
    omega
  · exact h a ha

theorem deleteItem_nonneg (db : DB) (id : String)
    (h : itemsNonneg db) : itemsNonneg (deleteItem db id).2 := by
  simp only [deleteItem]
  repeat' split
  any_goals exact h
  intro it hit
  exact h it (List.mem_of_mem_filter hit)

theorem fulfillOrder_nonneg (db : DB) (oid : String)
    (h : itemsNonneg db) : itemsNonneg (fulfillOrder db oid).2 := by
  simp only [fulfillOrder]
  repeat' split
  any_goals exact h
  intro it hit
  exact applyDecrements_nonneg _ _ h it hit

theorem applyOp_nonneg (db : DB) (op : Op)
    (h : itemsNonneg db) : itemsNonneg (applyOp db op) := by
  cases op with
  | createItem req newId now => exact createItem_nonneg db req newId now h
  | updateItem req now => exact updateItem_nonneg db req now h
  | deleteItem id => exact deleteItem_nonneg db id h
  | createOrder req newId now =>
    intro it hit
    rw [applyOp, createOrder_items] at hit
    exact h it hit
  | fulfillOrder oid => exact fulfillOrder_nonneg db oid h
  | getOrder id =>
    intro it hit
    rw [applyOp, getOrder_snd] at hit
    exact h it hit
  | createShipment req newId now =>
    intro it hit
    rw [applyOp, createShipment_items] at hit
    exact h it hit
  | updateShipment req now =>
    intro it hit
    rw [applyOp, updateShipment_items] at hit
    exact h it hit

theorem runOps_nonneg (ops : List Op) (db : DB)
    (h : itemsNonneg db) : itemsNonneg (runOps db ops) := by
  induction ops generalizing db with
  | nil => exact h
  | cons op ops ih => exact ih (applyOp db op) (applyOp_nonneg db op h)

theorem find_append_none {α : Type} {p : α → Bool} {l₁ : List α} (l₂ : List α)
    (h : l₁.find? p = none) : (l₁ ++ l₂).find? p = l₂.find? p := by
  induction l₁ with
  | nil => rfl
  | cons x xs ih =>
    rw [List.cons_append]
    cases hx : p x with
    | true => simp [List.find?_cons, hx] at h
    | false =>
      have h' : xs.find? p = none := by simpa [List.find?_cons, hx] using h
      simpa [List.find?_cons, hx] using ih h'

theorem createOrder_orders (db : DB) (req : CreateOrderRequest) (newId : String)
    (now : Int) :
    ((createOrder db req newId now).2).orders = db.orders
    ∨ ∃ row : OrderRow, ((createOrder db req newId now).2).orders = db.orders ++ [row] := by
  unfold createOrder
  repeat' split
  all_goals first
    | (left; rfl)
    | (right; exact ⟨_, rfl⟩)

theorem fulfillOrder_orders (db : DB) (oid : String) :
    ((fulfillOrder db oid).2).orders = db.orders
    ∨ (∃ o₀ : OrderRow, findOrder db oid = some o₀ ∧ o₀.status = "PENDING"
        ∧ ((fulfillOrder db oid).2).orders = db.orders.map (setFulfilled oid)) := by
  simp only [fulfillOrder]
  split
  · left; rfl
  · split
    · left; rfl
    · rename_i o₀ hmatch
      split
      · left; rfl
      · rename_i hpend
        right
        exact ⟨o₀, hmatch, not_not.mp hpend, rfl⟩

/-! The claims. -/

/-- C1: the spec requires FulfillOrder on a PENDING order to abort with
FailedPrecondition when a line's conditional decrement matches zero rows
(insufficient stock) and to commit no decrement.  The code never inspects
the affected-row count: at the spec's own example input (a PENDING order
whose sole line requests 10 units of a 5-unit-stock item) the call commits,
reports success, and marks the order FULFILLED while the stock stays 5. -/
theorem c1_insufficient_stock_not_rejected :
    fulfillOrder
        ⟨[⟨"A", "Widget", "", 5, 999, "USD", 0⟩],
         [⟨"O1", "C1", 9990, "USD", "PENDING", 0⟩],
         [⟨"O1", "A", 10⟩], [], [], []⟩ "O1"
      = (.ok ⟨"O1", "", [], none, "FULFILLED", 0⟩,
         ⟨[⟨"A", "Widget", "", 5, 999, "USD", 0⟩],
          [⟨"O1", "C1", 9990, "USD", "FULFILLED", 0⟩],
          [⟨"O1", "A", 10⟩], [], [], []⟩) := by decide

/-- C2: stock quantities are never observed negative: every call history from
the empty store keeps all item quantities non-negative, CreateItem and
UpdateItem reject a negative requested quantity with InvalidArgument leaving
the store unchanged, and FulfillOrder preserves non-negativity because each
conditional decrement only applies when the current quantity covers the
requested one. -/
theorem c2_quantity_never_negative :
    (∀ ops : List Op, itemsNonneg (runOps emptyDB ops))
    ∧ (∀ (db : DB) (req : CreateItemRequest) (newId : String) (now : Int),
        req.quantity < 0 → createItem db req newId now = (.err .invalidArgument, db))
    ∧ (∀ (db : DB) (req : UpdateItemRequest) (now : Int),
        req.quantity < 0 → updateItem db req now = (.err .invalidArgument, db))
    ∧ (∀ (db : DB) (oid : String), itemsNonneg db → itemsNonneg (fulfillOrder db oid).2) := by
  refine ⟨?_, ?_, ?_, ?_⟩
  · intro ops
    exact runOps_nonneg ops emptyDB (by intro it hit; simp [emptyDB] at hit)
  · intro db req newId now hq
    simp [createItem, hq]
  · intro db req now hq
    simp [updateItem, hq]
  · intro db oid h
    exact fulfillOrder_nonneg db oid h

/-- Witness for C2 at concrete inputs. -/
theorem c2_quantity_never_negative_witness :
    itemsNonneg (runOps emptyDB
      [Op.createItem ⟨"Widget", "", 5, some ⟨999, "USD", ""⟩⟩ "I1" 0])
    ∧ createItem emptyDB ⟨"Widget", "", -1, some ⟨999, "USD", ""⟩⟩ "I1" 0
        = (.err .invalidArgument, emptyDB)
    ∧ updateItem emptyDB ⟨"I1", "Widget", "", -3, some ⟨999, "USD", ""⟩⟩ 0
        = (.err .invalidArgument, emptyDB)
    ∧ itemsNonneg (fulfillOrder
        ⟨[⟨"A", "Widget", "", 5, 999, "USD", 0⟩],
         [⟨"O1", "C1", 1998, "USD", "PENDING", 0⟩],
         [⟨"O1", "A", 2⟩], [], [], []⟩ "O1").2 :=
  ⟨c2_quantity_never_negative.1 _,
   c2_quantity_never_negative.2.1 _ _ _ _ (by decide),
   c2_quantity_never_negative.2.2.1 _ _ _ (by decide),
   c2_quantity_never_negative.2.2.2 _ _ (by decide)⟩

/-- C3: an order's status only ever moves PENDING to FULFILLED and at most
once: FulfillOrder with a non-empty id that matches no order returns
NotFound with the store untouched, FulfillOrder on an order whose status is
not PENDING returns FailedPrecondition with the store (hence every item
quantity) untouched, and no operation maps an order's status to anything
except keeping it or moving it from PENDING to FULFILLED. -/
theorem c3_status_pending_to_fulfilled_once :
    (∀ (db : DB) (oid : String), oid ≠ "" → findOrder db oid = none →
        fulfillOrder db oid = (.err .notFound, db))
    ∧ (∀ (db : DB) (oid : String) (o : OrderRow), oid ≠ "" →
        findOrder db oid = some o → o.status ≠ "PENDING" →
        fulfillOrder db oid = (.err .failedPrecondition, db))
    ∧ (∀ (db : DB) (op : Op) (oid : String) (o o' : OrderRow),
        findOrder db oid = some o → findOrder (applyOp db op) oid = some o' →
        o'.status = o.status ∨ (o.status = "PENDING" ∧ o'.status = "FULFILLED")) := by
  refine ⟨?_, ?_, ?_⟩
  · intro db oid h hnone
    simp [fulfillOrder, h, hnone]
  · intro db oid o h hsome hstat
    simp [fulfillOrder, h, hsome, hstat]
  · intro db op oid o o' h1 h2
    cases op with
    | createItem req newId now =>
      unfold findOrder at h1 h2
      rw [applyOp, createItem_orders] at h2
      left; rw [Option.some.inj (h1.symm.trans h2)]
    | updateItem req now =>
      unfold findOrder at h1 h2
      rw [applyOp, updateItem_orders] at h2
      left; rw [Option.some.inj (h1.symm.trans h2)]
    | deleteItem id =>
      unfold findOrder at h1 h2
      rw [applyOp, deleteItem_orders] at h2
      left; rw [Option.some.inj (h1.symm.trans h2)]
    | getOrder id =>
      unfold findOrder at h1 h2
      rw [applyOp, getOrder_snd] at h2
      left; rw [Option.some.inj (h1.symm.trans h2)]
    | createShipment req newId now =>
      unfold findOrder at h1 h2
      rw [applyOp, createShipment_orders] at h2
      left; rw [Option.some.inj (h1.symm.trans h2)]
    | updateShipment req now =>
      unfold findOrder at h1 h2
      rw [applyOp, updateShipment_orders] at h2
      left; rw [Option.some.inj (h1.symm.trans h2)]
    | createOrder req newId now =>
      rcases createOrder_orders db req newId now with e | ⟨row, e⟩
      · unfold findOrder at h1 h2
        rw [applyOp, e] at h2
        left; rw [Option.some.inj (h1.symm.trans h2)]
      · unfold findOrder at h1 h2
        rw [applyOp, e] at h2
        left; rw [Option.some.inj ((find_append_some _ h1).symm.trans h2)]
    | fulfillOrder tid =>
      rcases fulfillOrder_orders db tid with e | ⟨o₀, hmatch, hpend, e⟩
      · unfold findOrder at h1 h2
        rw [applyOp, e] at h2
        left; rw [Option.some.inj (h1.symm.trans h2)]
      · unfold findOrder at h1 h2 hmatch
        rw [applyOp, e, find_map_setFulfilled] at h2
        rw [h1] at h2
        have h2' : setFulfilled tid o = o' := by simpa using h2
        unfold setFulfilled at h2'
        by_cases hid : (o.id == tid) = true
        · rw [if_pos hid] at h2'
          right
          constructor
          · have e1 : o.id = oid := by simpa using List.find?_some h1
            have hoidtid : oid = tid := by
              have e2 : o.id = tid := by simpa using hid
              rw [← e1, e2]
            rw [hoidtid] at h1
            rw [Option.some.inj (h1.symm.trans hmatch)]
            exact hpend
          · rw [← h2']
        · rw [if_neg hid] at h2'
          left; rw [← h2']

/-- Witness for C3 at concrete inputs: an unknown order id, a second fulfill
of an already FULFILLED order, and the one legal transition. -/
theorem c3_status_pending_to_fulfilled_once_witness :
    fulfillOrder emptyDB "X" = (.err .notFound, emptyDB)
    ∧ fulfillOrder ⟨[], [⟨"O1", "C1", 5, "USD", "FULFILLED", 0⟩], [], [], [], []⟩ "O1"
        = (.err .failedPrecondition,
           ⟨[], [⟨"O1", "C1", 5, "USD", "FULFILLED", 0⟩], [], [], [], []⟩)
    ∧ ((⟨"O1", "C1", 5, "USD", "FULFILLED", 0⟩ : OrderRow).status
          = (⟨"O1", "C1", 5, "USD", "PENDING", 0⟩ : OrderRow).status
        ∨ ((⟨"O1", "C1", 5, "USD", "PENDING", 0⟩ : OrderRow).status = "PENDING"
            ∧ (⟨"O1", "C1", 5, "USD", "FULFILLED", 0⟩ : OrderRow).status = "FULFILLED")) :=
  ⟨c3_status_pending_to_fulfilled_once.1 emptyDB "X" (by decide) (by decide),
   c3_status_pending_to_fulfilled_once.2.1
     ⟨[], [⟨"O1", "C1", 5, "USD", "FULFILLED", 0⟩], [], [], [], []⟩ "O1"
     ⟨"O1", "C1", 5, "USD", "FULFILLED", 0⟩ (by decide) (by decide) (by decide),
   c3_status_pending_to_fulfilled_once.2.2
     ⟨[], [⟨"O1", "C1", 5, "USD", "PENDING", 0⟩], [], [], [], []⟩
     (Op.fulfillOrder "O1") "O1"
     ⟨"O1", "C1", 5, "USD", "PENDING", 0⟩
     ⟨"O1", "C1", 5, "USD", "FULFILLED", 0⟩ (by decide) (by decide)⟩

/-- C4: once the authorization gate has passed, the interceptor returns
exactly the wrapped handler's response and error; when the audit INSERT
succeeds it appends exactly one audit row recording the api key, the full
method name, the serialized request, and the outcome status ("success" on
success, otherwise the error's status code name); when the audit INSERT
fails, the store and the returned result are exactly the handler's, so the
audit failure never changes the caller-visible outcome. -/
theorem c4_one_audit_entry_per_authorized_call {α : Type} (apiKey : String)
    (rest : List String) (db : DB) (role : String)
    (fullMethod requestData : String) (now : Int)
    (handler : DB → Except Code α × DB) (auditOk : Bool)
    (hrole : validateAPIKey db.users apiKey = some role)
    (hallowed : fullMethod ∈ allowedMethods role) :
    (unaryInterceptor (some (apiKey :: rest)) fullMethod requestData now auditOk
        handler db).1 = (handler db).1
    ∧ (auditOk = true →
        (unaryInterceptor (some (apiKey :: rest)) fullMethod requestData now auditOk
            handler db).2.auditLogs
          = (handler db).2.auditLogs
            ++ [⟨apiKey, fullMethod, requestData,
                 match (handler db).1 with
                 | .ok _ => "success"
                 | .error c => c.name, now⟩])
    ∧ (auditOk = false →
        (unaryInterceptor (some (apiKey :: rest)) fullMethod requestData now auditOk
            handler db).2 = (handler db).2) := by
  refine ⟨?_, ?_, ?_⟩
  · simp [unaryInterceptor, hrole, hallowed]
  · rintro rfl
    simp [unaryInterceptor, hrole, hallowed]
  · rintro rfl
    simp [unaryInterceptor, hrole, hallowed]

/-- Witness for C4: an authorized admin call whose handler fails with
InvalidArgument is audited exactly once with status "InvalidArgument", and
its result survives an audit-write failure unchanged. -/
theorem c4_one_audit_entry_per_authorized_call_witness :
    (unaryInterceptor (some ["admin-key-456"]) "/supplychain.SupplyChain/CreateItem"
        "r" 7 true (fun db => ((Except.error Code.invalidArgument : Except Code Unit), db))
        ⟨[], [], [], [], [⟨"admin-key-456", "admin"⟩], []⟩).2.auditLogs
      = [⟨"admin-key-456", "/supplychain.SupplyChain/CreateItem", "r", "InvalidArgument", 7⟩]
    ∧ (unaryInterceptor (some ["admin-key-456"]) "/supplychain.SupplyChain/CreateItem"
        "r" 7 false (fun db => ((Except.error Code.invalidArgument : Except Code Unit), db))
        ⟨[], [], [], [], [⟨"admin-key-456", "admin"⟩], []⟩).2
      = ⟨[], [], [], [], [⟨"admin-key-456", "admin"⟩], []⟩ := by
  constructor
  · exact (@c4_one_audit_entry_per_authorized_call Unit "admin-key-456" []
      ⟨[], [], [], [], [⟨"admin-key-456", "admin"⟩], []⟩ "admin"
      "/supplychain.SupplyChain/CreateItem" "r" 7
      (fun db => (Except.error Code.invalidArgument, db)) true
      (by decide) (by decide)).2.1 rfl
  · exact (@c4_one_audit_entry_per_authorized_call Unit "admin-key-456" []
      ⟨[], [], [], [], [⟨"admin-key-456", "admin"⟩], []⟩ "admin"
      "/supplychain.SupplyChain/CreateItem" "r" 7
      (fun db => (Except.error Code.invalidArgument, db)) false
      (by decide) (by decide)).2.2 rfl

/-- C5: the gate decides in order — no metadata or no api key attached gives
Unauthenticated, an api key missing from the users table gives
Unauthenticated, a method outside the resolved role's allow-list gives
PermissionDenied — each rejection returning before the handler runs, with
the store unchanged, for any handler whatsoever; and the two allow-lists
are exactly the customer and admin method sets of the claim. -/
theorem c5_gate_order_and_allowlists {α : Type} (fullMethod requestData : String)
    (now : Int) (auditOk : Bool) (handler : DB → Except Code α × DB) (db : DB) :
    unaryInterceptor none fullMethod requestData now auditOk handler db
        = (.error .unauthenticated, db)
    ∧ unaryInterceptor (some []) fullMethod requestData now auditOk handler db
        = (.error .unauthenticated, db)
    ∧ (∀ (apiKey : String) (rest : List String),
        validateAPIKey db.users apiKey = none →
        unaryInterceptor (some (apiKey :: rest)) fullMethod requestData now auditOk
            handler db
          = (.error .unauthenticated, db))
    ∧ (∀ (apiKey : String) (rest : List String) (role : String),
        validateAPIKey db.users apiKey = some role →
        fullMethod ∉ allowedMethods role →
        unaryInterceptor (some (apiKey :: rest)) fullMethod requestData now auditOk
            handler db
          = (.error .permissionDenied, db))
    ∧ allowedMethods "customer"
        = ["/supplychain.SupplyChain/CreateOrder",
           "/supplychain.SupplyChain/ListItems",
           "/supplychain.SupplyChain/GetOrder"]
    ∧ allowedMethods "admin"
        = ["/supplychain.SupplyChain/CreateItem",
           "/supplychain.SupplyChain/UpdateItem",
           "/supplychain.SupplyChain/DeleteItem",
           "/supplychain.SupplyChain/CreateOrder",
           "/supplychain.SupplyChain/FulfillOrder",
           "/supplychain.SupplyChain/GetOrder",
           "/supplychain.SupplyChain/CreateShipment",
           "/supplychain.SupplyChain/UpdateShipment",
           "/supplychain.SupplyChain/ListItems",
           "/supplychain.SupplyChain/ListShipments",
           "/supplychain.SupplyChain/AuditLogs"] := by
  refine ⟨rfl, rfl, ?_, ?_, by decide, by decide⟩
  · intro apiKey rest h
    simp [unaryInterceptor, h]
  · intro apiKey rest role h hna
    simp [unaryInterceptor, h, hna]

/-- Witness for C5: a customer-role key invoking the admin-only CreateItem is
denied with the store unchanged, and an unknown key is unauthenticated. -/
theorem c5_gate_order_and_allowlists_witness :
    unaryInterceptor (some ["customer-key-123"]) "/supplychain.SupplyChain/CreateItem"
        "r" 7 true (fun db => ((Except.ok () : Except Code Unit), db))
        ⟨[], [], [], [], [⟨"customer-key-123", "customer"⟩], []⟩
      = (.error .permissionDenied,
         ⟨[], [], [], [], [⟨"customer-key-123", "customer"⟩], []⟩)
    ∧ unaryInterceptor (some ["nope"]) "/supplychain.SupplyChain/CreateItem"
        "r" 7 true (fun db => ((Except.ok () : Except Code Unit), db))
        ⟨[], [], [], [], [⟨"customer-key-123", "customer"⟩], []⟩
      = (.error .unauthenticated,
         ⟨[], [], [], [], [⟨"customer-key-123", "customer"⟩], []⟩) := by
  constructor
  · exact (@c5_gate_order_and_allowlists Unit "/supplychain.SupplyChain/CreateItem"
      "r" 7 true (fun db => (Except.ok (), db))
      ⟨[], [], [], [], [⟨"customer-key-123", "customer"⟩], []⟩).2.2.2.1
      "customer-key-123" [] "customer" (by decide) (by decide)
  · exact (@c5_gate_order_and_allowlists Unit "/supplychain.SupplyChain/CreateItem"
      "r" 7 true (fun db => (Except.ok (), db))
      ⟨[], [], [], [], [⟨"customer-key-123", "customer"⟩], []⟩).2.2.1
      "nope" [] (by decide)

theorem formatAmount_value (a : Amount) : (formatAmount a).value = a.value := rfl

theorem observedTotal_updateItem (db : DB) (req : UpdateItemRequest) (now : Int)
    (oid : String) :
    observedTotal (updateItem db req now).2 oid = observedTotal db oid := by
  unfold observedTotal
  have e : (getOrder (updateItem db req now).2 oid).1 = (getOrder db oid).1 := by
    unfold getOrder findOrder
    rw [updateItem_orders, updateItem_orderItems]
    by_cases h : oid = ""
    · simp [h]
    · simp only [if_neg h]
      cases hfind : List.find? (fun o => o.id == oid) db.orders with
      | none => simp [hfind]
      | some o => simp [hfind]
  rw [e]

/-- C6: a successful CreateOrder snapshots the total as the fold of
unit-price-at-creation times line quantity over the order's lines (in int64
arithmetic), both in the returned order and as observed through GetOrder on
the stored row; and any later UpdateItem — in particular one changing a
referenced item's price — leaves the total observed through GetOrder
unchanged. -/
theorem c6_total_snapshot_immutable (db : DB) (req : CreateOrderRequest)
    (newId : String) (now : Int) (ord : Order) (db1 : DB)
    (hid : newId ≠ "")
    (h : createOrder db req newId now = (.ok ord, db1))
    (req2 : UpdateItemRequest) (now2 : Int) :
    ∃ tot : Int,
      computeTotal db.items req.items 0 = some tot
      ∧ ord.total = some (formatAmount ⟨tot, "USD", ""⟩)
      ∧ observedTotal db1 newId = some tot
      ∧ observedTotal (updateItem db1 req2 now2).2 newId = some tot := by
  unfold createOrder at h
  split at h
  · exact absurd h (by simp)
  split at h
  · exact absurd h (by simp)
  split at h
  · exact absurd h (by simp)
  rename_i tot htot
  split at h
  · exact absurd h (by simp)
  rename_i hfresh
  split at h
  · exact absurd h (by simp)
  rename_i lines hlines
  rw [Prod.mk.injEq] at h
  obtain ⟨hord, hdb1⟩ := h
  injection hord with hord
  subst hord
  subst hdb1
  have hnone : db.orders.find? (fun o => o.id == newId) = none := by
    rw [List.find?_eq_none]
    intro x hx
    have hany : db.orders.any (fun o => o.id == newId) = false := by
      simpa using hfresh
    simpa using List.any_eq_false.mp hany x hx
  have hobs : observedTotal
      { db with
        orders := db.orders ++ [⟨newId, req.customerId, tot, "USD", "PENDING", now⟩],
        orderItems := lines } newId = some tot := by
    unfold observedTotal getOrder findOrder
    rw [if_neg hid]
    rw [show ({ db with
        orders := db.orders ++ [⟨newId, req.customerId, tot, "USD", "PENDING", now⟩],
        orderItems := lines } : DB).orders
      = db.orders ++ [⟨newId, req.customerId, tot, "USD", "PENDING", now⟩] from rfl]
    rw [find_append_none _ hnone]
    simp [List.find?_cons, formatAmount_value]
  exact ⟨tot, htot, rfl, hobs, by rw [observedTotal_updateItem]; exact hobs⟩

/-- Witness for C6: a 2-unit line on a 9.99 item snapshots total 1998; an
UpdateItem that changes the item's price to 1.11 leaves the observed total
at 1998. -/
theorem c6_total_snapshot_immutable_witness :
    ∃ tot : Int,
      computeTotal [⟨"A", "Widget", "", 5, 999, "USD", 0⟩] [⟨"A", 2⟩] 0 = some tot
      ∧ (⟨"O1", "C1", [⟨"A", 2⟩], some (formatAmount ⟨1998, "USD", ""⟩),
           "PENDING", 3⟩ : Order).total = some (formatAmount ⟨tot, "USD", ""⟩)
      ∧ observedTotal
          ⟨[⟨"A", "Widget", "", 5, 999, "USD", 0⟩],
           [⟨"O1", "C1", 1998, "USD", "PENDING", 3⟩],
           [⟨"O1", "A", 2⟩], [], [], []⟩ "O1" = some tot
      ∧ observedTotal
          (updateItem
            ⟨[⟨"A", "Widget", "", 5, 999, "USD", 0⟩],
             [⟨"O1", "C1", 1998, "USD", "PENDING", 3⟩],
             [⟨"O1", "A", 2⟩], [], [], []⟩
            ⟨"A", "Widget", "", 5, some ⟨111, "USD", ""⟩⟩ 9).2 "O1" = some tot :=
  c6_total_snapshot_immutable
    ⟨[⟨"A", "Widget", "", 5, 999, "USD", 0⟩], [], [], [], [], []⟩
    ⟨"C1", [⟨"A", 2⟩]⟩ "O1" 3
    ⟨"O1", "C1", [⟨"A", 2⟩], some (formatAmount ⟨1998, "USD", ""⟩), "PENDING", 3⟩
    ⟨[⟨"A", "Widget", "", 5, 999, "USD", 0⟩],
     [⟨"O1", "C1", 1998, "USD", "PENDING", 3⟩],
     [⟨"O1", "A", 2⟩], [], [], []⟩
    (by decide) (by decide)
    ⟨"A", "Widget", "", 5, some ⟨111, "USD", ""⟩⟩ 9

/-- C7, counterexample to the claim as stated: a CreateOrder request with a
non-empty customer id and a non-empty line list, every referenced item
present, but the same item id on two lines.  The claim says such a call
persists the order and succeeds; the second line's INSERT violates the
order_items composite primary key, so the call returns Internal and rolls
everything back. -/
theorem c7_duplicate_line_counterexample :
    createOrder ⟨[⟨"A", "Widget", "", 5, 100, "USD", 0⟩], [], [], [], [], []⟩
        ⟨"C1", [⟨"A", 1⟩, ⟨"A", 1⟩]⟩ "O1" 0
      = (.err .internal,
         ⟨[⟨"A", "Widget", "", 5, 100, "USD", 0⟩], [], [], [], [], []⟩) := by decide

/-- C7 as amended: CreateOrder returns InvalidArgument when the customer id
is empty or the line list is empty; returns NotFound when some line
references an absent item; otherwise — provided the line item ids are
pairwise distinct (a duplicate violates the order-lines primary key and
yields Internal) and the generated order id is fresh — it persists the
order with status PENDING together with all of its lines, succeeding with
no hypothesis whatsoever on current stock levels. -/
theorem c7_createOrder_contract :
    (∀ (db : DB) (req : CreateOrderRequest) (newId : String) (now : Int),
        req.customerId = "" ∨ req.items = [] →
        createOrder db req newId now = (.err .invalidArgument, db))
    ∧ (∀ (db : DB) (req : CreateOrderRequest) (newId : String) (now : Int),
        req.customerId ≠ "" → req.items ≠ [] →
        (∃ l ∈ req.items, findItem db.items l.itemId = none) →
        createOrder db req newId now = (.err .notFound, db))
    ∧ (∀ (db : DB) (req : CreateOrderRequest) (newId : String) (now : Int),
        req.customerId ≠ "" → req.items ≠ [] →
        (∀ l ∈ req.items, (findItem db.items l.itemId).isSome) →
        (∀ o ∈ db.orders, o.id ≠ newId) →
        (∀ r ∈ db.orderItems, r.orderId ≠ newId) →
        (req.items.map (fun l => l.itemId)).Nodup →
        ∃ tot : Int,
          computeTotal db.items req.items 0 = some tot
          ∧ createOrder db req newId now
            = (.ok ⟨newId, req.customerId, req.items,
                    some (formatAmount ⟨tot, "USD", ""⟩), "PENDING", now⟩,
               { db with
                  orders := db.orders
                    ++ [⟨newId, req.customerId, tot, "USD", "PENDING", now⟩],
                  orderItems := db.orderItems
                    ++ req.items.map (fun l => ⟨newId, l.itemId, l.quantity⟩) })) := by
  refine ⟨?_, ?_, ?_⟩
  · intro db req newId now h
    rcases h with h | h
    · simp [createOrder, h]
    · simp [createOrder, h]
  · intro db req newId now hc hi hmiss
    have hlen : ¬(req.items.length = 0) := by
      simpa [List.length_eq_zero] using hi
    have htot : computeTotal db.items req.items 0 = none :=
      (computeTotal_eq_none_iff _ _ _).mpr hmiss
    simp [createOrder, hc, hlen, htot]
  · intro db req newId now hc hi hall horders horderItems hnodup
    have hlen : ¬(req.items.length = 0) := by
      simpa [List.length_eq_zero] using hi
    obtain ⟨tot, htot⟩ : ∃ tot, computeTotal db.items req.items 0 = some tot := by
      cases h : computeTotal db.items req.items 0 with
      | none =>
        obtain ⟨l, hl, hfind⟩ := (computeTotal_eq_none_iff _ _ _).mp h
        have := hall l hl
        rw [hfind] at this
        exact absurd this (by simp)
      | some t => exact ⟨t, rfl⟩
    have hany : db.orders.any (fun o => o.id == newId) = false := by
      rw [List.any_eq_false]
      intro o ho
      simpa using horders o ho
    have hins : insertLines db.orderItems newId req.items
        = some (db.orderItems ++ req.items.map (fun l => ⟨newId, l.itemId, l.quantity⟩)) := by
      refine insertLines_eq newId req.items db.orderItems ?_ hnodup
      intro l hl r hr
      rintro ⟨h1, -⟩
      exact horderItems r hr h1
    refine ⟨tot, htot, ?_⟩
    simp [createOrder, hc, hlen, htot, hany, hins]

/-- Witness for C7's amended contract at concrete inputs: each failure branch
and a success whose sole line requests more units than are in stock. -/
theorem c7_createOrder_contract_witness :
    createOrder emptyDB ⟨"", [⟨"A", 1⟩]⟩ "O1" 0 = (.err .invalidArgument, emptyDB)
    ∧ createOrder emptyDB ⟨"C1", [⟨"A", 1⟩]⟩ "O1" 0 = (.err .notFound, emptyDB)
    ∧ (∃ tot : Int,
        computeTotal [⟨"A", "Widget", "", 5, 999, "USD", 0⟩] [⟨"A", 10⟩] 0 = some tot
        ∧ createOrder ⟨[⟨"A", "Widget", "", 5, 999, "USD", 0⟩], [], [], [], [], []⟩
            ⟨"C1", [⟨"A", 10⟩]⟩ "O1" 0
          = (.ok ⟨"O1", "C1", [⟨"A", 10⟩],
                  some (formatAmount ⟨tot, "USD", ""⟩), "PENDING", 0⟩,
             { (⟨[⟨"A", "Widget", "", 5, 999, "USD", 0⟩], [], [], [], [], []⟩ : DB) with
                orders := [] ++ [⟨"O1", "C1", tot, "USD", "PENDING", 0⟩],
                orderItems := [] ++ [(⟨"A", 10⟩ : OrderLine)].map
                  (fun l => ⟨"O1", l.itemId, l.quantity⟩) })) :=
  ⟨c7_createOrder_contract.1 emptyDB ⟨"", [⟨"A", 1⟩]⟩ "O1" 0 (Or.inl rfl),
   c7_createOrder_contract.2.1 emptyDB ⟨"C1", [⟨"A", 1⟩]⟩ "O1" 0
     (by decide) (by decide) ⟨⟨"A", 1⟩, by decide⟩,
   c7_createOrder_contract.2.2
     ⟨[⟨"A", "Widget", "", 5, 999, "USD", 0⟩], [], [], [], [], []⟩
     ⟨"C1", [⟨"A", 10⟩]⟩ "O1" 0
     (by decide) (by decide) (by decide) (by decide) (by decide) (by decide)⟩

/-- C8: CreateShipment returns InvalidArgument on an empty order id or
tracking number, NotFound when the order is absent, FailedPrecondition when
the order's status is not FULFILLED — each leaving the store untouched —
and otherwise inserts exactly one shipment whose status is PENDING and
whose order id and tracking number are the request's. -/
theorem c8_createShipment_contract :
    (∀ (db : DB) (req : CreateShipmentRequest) (newId : String) (now : Int),
        req.orderId = "" ∨ req.trackingNumber = "" →
        createShipment db req newId now = (.err .invalidArgument, db))
    ∧ (∀ (db : DB) (req : CreateShipmentRequest) (newId : String) (now : Int),
        req.orderId ≠ "" → req.trackingNumber ≠ "" →
        findOrder db req.orderId = none →
        createShipment db req newId now = (.err .notFound, db))
    ∧ (∀ (db : DB) (req : CreateShipmentRequest) (newId : String) (now : Int)
          (o : OrderRow),
        req.orderId ≠ "" → req.trackingNumber ≠ "" →
        findOrder db req.orderId = some o → o.status ≠ "FULFILLED" →
        createShipment db req newId now = (.err .failedPrecondition, db))
    ∧ (∀ (db : DB) (req : CreateShipmentRequest) (newId : String) (now : Int)
          (o : OrderRow),
        req.orderId ≠ "" → req.trackingNumber ≠ "" →
        findOrder db req.orderId = some o → o.status = "FULFILLED" →
        (∀ s ∈ db.shipments, s.id ≠ newId) →
        createShipment db req newId now
          = (.ok ⟨newId, req.orderId, "PENDING", req.trackingNumber, now⟩,
             { db with shipments := db.shipments
                ++ [⟨newId, req.orderId, "PENDING", req.trackingNumber, now⟩] })) := by
  refine ⟨?_, ?_, ?_, ?_⟩
  · intro db req newId now h
    rcases h with h | h
    · simp [createShipment, h]
    · simp [createShipment, h]
  · intro db req newId now h1 h2 hfind
    simp [createShipment, h1, h2, hfind]
  · intro db req newId now o h1 h2 hfind hstat
    simp [createShipment, h1, h2, hfind, hstat]
  · intro db req newId now o h1 h2 hfind hstat hfresh
    have hany : db.shipments.any (fun s => s.id == newId) = false := by
      rw [List.any_eq_false]
      intro s hs
      simpa using hfresh s hs
    simp [createShipment, h1, h2, hfind, hstat, hany]

/-- Witness for C8 at concrete inputs: empty tracking number, unknown order,
still-PENDING order, and a successful shipment of a FULFILLED order. -/
theorem c8_createShipment_contract_witness :
    createShipment emptyDB ⟨"O1", ""⟩ "S1" 0 = (.err .invalidArgument, emptyDB)
    ∧ createShipment emptyDB ⟨"O1", "TRK1"⟩ "S1" 0 = (.err .notFound, emptyDB)
    ∧ createShipment ⟨[], [⟨"O1", "C1", 5, "USD", "PENDING", 0⟩], [], [], [], []⟩
        ⟨"O1", "TRK1"⟩ "S1" 0
      = (.err .failedPrecondition,
         ⟨[], [⟨"O1", "C1", 5, "USD", "PENDING", 0⟩], [], [], [], []⟩)
    ∧ createShipment ⟨[], [⟨"O1", "C1", 5, "USD", "FULFILLED", 0⟩], [], [], [], []⟩
        ⟨"O1", "TRK1"⟩ "S1" 4
      = (.ok ⟨"S1", "O1", "PENDING", "TRK1", 4⟩,
         { (⟨[], [⟨"O1", "C1", 5, "USD", "FULFILLED", 0⟩], [], [], [], []⟩ : DB) with
            shipments := [] ++ [⟨"S1", "O1", "PENDING", "TRK1", 4⟩] }) :=
  ⟨c8_createShipment_contract.1 emptyDB ⟨"O1", ""⟩ "S1" 0 (Or.inr rfl),
   c8_createShipment_contract.2.1 emptyDB ⟨"O1", "TRK1"⟩ "S1" 0
     (by decide) (by decide) (by decide),
   c8_createShipment_contract.2.2.1
     ⟨[], [⟨"O1", "C1", 5, "USD", "PENDING", 0⟩], [], [], [], []⟩
     ⟨"O1", "TRK1"⟩ "S1" 0 ⟨"O1", "C1", 5, "USD", "PENDING", 0⟩
     (by decide) (by decide) (by decide) (by decide),
   c8_createShipment_contract.2.2.2
     ⟨[], [⟨"O1", "C1", 5, "USD", "FULFILLED", 0⟩], [], [], [], []⟩
     ⟨"O1", "TRK1"⟩ "S1" 4 ⟨"O1", "C1", 5, "USD", "FULFILLED", 0⟩
     (by decide) (by decide) (by decide) (by decide) (by decide)⟩

/-- C9: UpdateItem with valid fields (non-empty id and name, non-negative
quantity, a present non-negative unit price) and UpdateShipment with valid
fields (non-empty id and status) succeed even when no stored row has the
given id: the response echoes the request and the store is returned exactly
unchanged — zero affected rows is not reported as NotFound. -/
theorem c9_zero_row_update_succeeds :
    (∀ (db : DB) (req : UpdateItemRequest) (now : Int) (p : Amount),
        req.id ≠ "" → req.name ≠ "" → ¬(req.quantity < 0) →
        req.unitPrice = some p → ¬(p.value < 0) →
        (∀ it ∈ db.items, it.id ≠ req.id) →
        updateItem db req now
          = (.ok ⟨req.id, req.name, req.description, req.quantity,
                  formatAmount p, now⟩, db))
    ∧ (∀ (db : DB) (req : UpdateShipmentRequest) (now : Int),
        req.id ≠ "" → req.status ≠ "" →
        (∀ s ∈ db.shipments, s.id ≠ req.id) →
        updateShipment db req now
          = (.ok ⟨req.id, "", req.status, req.trackingNumber, now⟩, db)) := by
  constructor
  · intro db req now p hid hname hq hup hp hnone
    have hmap : db.items.map (fun it =>
        if it.id == req.id then
          { it with name := req.name, description := req.description,
                    quantity := req.quantity, unitPriceValue := p.value,
                    unitPriceCurrency := p.currency, updatedAt := now }
        else it) = db.items :=
      map_ite_eq_self (fun it hit => by simpa using hnone it hit)
    simp only [updateItem, if_neg hid, if_neg hname, if_neg hq, hup, if_neg hp]
    rw [hmap]
  · intro db req now hid hstatus hnone
    have hmap : db.shipments.map (fun s =>
        if s.id == req.id then
          { s with status := req.status, trackingNumber := req.trackingNumber,
                   updatedAt := now }
        else s) = db.shipments :=
      map_ite_eq_self (fun s hs => by simpa using hnone s hs)
    simp only [updateShipment, if_neg hid, if_neg hstatus]
    rw [hmap]

/-- Witness for C9: updating an item and a shipment in stores that do not
contain the targeted id succeeds and leaves the stores unchanged. -/
theorem c9_zero_row_update_succeeds_witness :
    updateItem ⟨[⟨"B", "Gadget", "", 7, 100, "USD", 0⟩], [], [], [], [], []⟩
        ⟨"A", "Widget", "d", 5, some ⟨999, "USD", ""⟩⟩ 4
      = (.ok ⟨"A", "Widget", "d", 5, formatAmount ⟨999, "USD", ""⟩, 4⟩,
         ⟨[⟨"B", "Gadget", "", 7, 100, "USD", 0⟩], [], [], [], [], []⟩)
    ∧ updateShipment ⟨[], [], [], [⟨"T", "O9", "PENDING", "TRK9", 0⟩], [], []⟩
        ⟨"S", "SHIPPED", "TRK1"⟩ 4
      = (.ok ⟨"S", "", "SHIPPED", "TRK1", 4⟩,
         ⟨[], [], [], [⟨"T", "O9", "PENDING", "TRK9", 0⟩], [], []⟩) :=
  ⟨c9_zero_row_update_succeeds.1
     ⟨[⟨"B", "Gadget", "", 7, 100, "USD", 0⟩], [], [], [], [], []⟩
     ⟨"A", "Widget", "d", 5, some ⟨999, "USD", ""⟩⟩ 4 ⟨999, "USD", ""⟩
     (by decide) (by decide) (by decide) rfl (by decide) (by decide),
   c9_zero_row_update_succeeds.2
     ⟨[], [], [], [⟨"T", "O9", "PENDING", "TRK9", 0⟩], [], []⟩
     ⟨"S", "SHIPPED", "TRK1"⟩ 4 (by decide) (by decide) (by decide)⟩

/-- C10, counterexample to the claim as stated: a CreateItem request with an
absent unit price but an empty name returns InvalidArgument rather than
panicking — Go's short-circuit disjunction rejects on the empty name before
the nil unit-price dereference is ever evaluated, so the error branch is
reachable with an absent unit price. -/
theorem c10_nil_price_counterexample :
    createItem emptyDB ⟨"", "", 5, none⟩ "I1" 0 = (.err .invalidArgument, emptyDB)
    ∧ createItem emptyDB ⟨"", "", 5, none⟩ "I1" 0 ≠ (.panicked, emptyDB) := by decide

/-- C10 as amended: CreateItem and UpdateItem read unitPrice.value during
validation without a presence check, but the disjunction short-circuits:
the call panics on an absent unit price exactly when every earlier disjunct
fails (CreateItem: non-empty name and non-negative quantity; UpdateItem:
additionally a non-empty id); when an earlier disjunct trips, the call
returns InvalidArgument without reaching the dereference, so the error
branch is reachable even with the unit price absent. -/
theorem c10_nil_price_panics :
    (∀ (db : DB) (req : CreateItemRequest) (newId : String) (now : Int),
        req.unitPrice = none → req.name ≠ "" → ¬(req.quantity < 0) →
        createItem db req newId now = (.panicked, db))
    ∧ (∀ (db : DB) (req : UpdateItemRequest) (now : Int),
        req.unitPrice = none → req.id ≠ "" → req.name ≠ "" → ¬(req.quantity < 0) →
        updateItem db req now = (.panicked, db))
    ∧ (∀ (db : DB) (req : CreateItemRequest) (newId : String) (now : Int),
        req.unitPrice = none → (req.name = "" ∨ req.quantity < 0) →
        createItem db req newId now = (.err .invalidArgument, db))
    ∧ (∀ (db : DB) (req : UpdateItemRequest) (now : Int),
        req.unitPrice = none → (req.id = "" ∨ req.name = "" ∨ req.quantity < 0) →
        updateItem db req now = (.err .invalidArgument, db)) := by
  refine ⟨?_, ?_, ?_, ?_⟩
  · intro db req newId now hup hname hq
    simp [createItem, hname, hq, hup]
  · intro db req now hup hid hname hq
    simp [updateItem, hid, hname, hq, hup]
  · intro db req newId now hup h
    rcases h with h | h
    · simp [createItem, h]
    · simp [createItem, h]
  · intro db req now hup h
    rcases h with h | h | h
    · simp [updateItem, h]
    · simp [updateItem, h]
    · simp [updateItem, h]

/-- Witness for C10's amended claim: a nil unit price panics CreateItem and
UpdateItem when the earlier checks pass, while an empty name still yields
InvalidArgument. -/
theorem c10_nil_price_panics_witness :
    createItem emptyDB ⟨"Widget", "", 5, none⟩ "I1" 0 = (.panicked, emptyDB)
    ∧ updateItem emptyDB ⟨"I1", "Widget", "", 5, none⟩ 0 = (.panicked, emptyDB)
    ∧ createItem emptyDB ⟨"", "d", 5, none⟩ "I1" 0 = (.err .invalidArgument, emptyDB)
    ∧ updateItem emptyDB ⟨"", "Widget", "", 5, none⟩ 0 = (.err .invalidArgument, emptyDB) :=
  ⟨c10_nil_price_panics.1 emptyDB ⟨"Widget", "", 5, none⟩ "I1" 0 rfl
     (by decide) (by decide),
   c10_nil_price_panics.2.1 emptyDB ⟨"I1", "Widget", "", 5, none⟩ 0 rfl
     (by decide) (by decide) (by decide),
   c10_nil_price_panics.2.2.1 emptyDB ⟨"", "d", 5, none⟩ "I1" 0 rfl (Or.inl rfl),
   c10_nil_price_panics.2.2.2 emptyDB ⟨"", "Widget", "", 5, none⟩ 0 rfl (Or.inl rfl)⟩

end SupplyChain
